import Mathlib

/-
Verification of the storage orchestration core of qubes-core-admin
(file qubes/storage/__init__.py): the Volume entity and its construction
invariants, Pool and Volume equality and hashing, the VolumesCollection
lookup adapter, configuration serialization, frontend slot allocation,
the Storage coordinator's remove / clone / import_data paths, and the
backend-locator helper search_pool_containing_dir.

Python exceptions are modelled by the PyExc type and fallible operations
return Except PyExc.  Python dictionaries appearing here (volume config)
are modelled as association lists in insertion order.
-/

/-- Exception classes relevant to the storage module.  In Python 3,
IOError is an alias of OSError, so a single constructor covers both. -/
inductive PyExc where
  | assertionError
  | storagePoolException
  | notImplementedError
  | osError
  | keyError
  | indexError
  deriving DecidableEq, Repr

/-- Pool data relevant to identity: Pool.__init__ stores name and
revisions_to_keep. -/
structure Pool where
  name : String
  revisions_to_keep : Int
  deriving DecidableEq, Repr

/-- Model of Python's string hash: only the property that equal strings
hash equally matters for the claims below. -/
def strHash (s : String) : Nat :=
  s.foldl (fun h c => h * 31 + c.toNat) 7

/-- Pool.__eq__ against another Pool: self.name == other.name. -/
def poolEqPool (p q : Pool) : Bool := p.name == q.name

/-- Pool.__eq__ against a str: self.name == other. -/
def poolEqStr (p : Pool) (s : String) : Bool := p.name == s

/-- Pool.__hash__: hash(self.name). -/
def poolHash (p : Pool) : Nat := strHash p.name

/-- Pool.__str__: self.name. -/
def poolStr (p : Pool) : String := p.name

/-- Volume attributes stored by Volume.__init__, with source an optional
other Volume (nested recursion through Option as in the Python object
graph). -/
inductive Volume where
  | mk (name : String) (pool : Pool) (vid : String) (revisions_to_keep : Int)
      (rw : Bool) (save_on_stop : Bool) (size : Int) (snap_on_start : Bool)
      (source : Option Volume)

def Volume.name : Volume → String
  | .mk n _ _ _ _ _ _ _ _ => n

def Volume.pool : Volume → Pool
  | .mk _ p _ _ _ _ _ _ _ => p

def Volume.vid : Volume → String
  | .mk _ _ v _ _ _ _ _ _ => v

def Volume.revisions_to_keep : Volume → Int
  | .mk _ _ _ r _ _ _ _ _ => r

def Volume.rw : Volume → Bool
  | .mk _ _ _ _ r _ _ _ _ => r

def Volume.save_on_stop : Volume → Bool
  | .mk _ _ _ _ _ s _ _ _ => s

def Volume.size : Volume → Int
  | .mk _ _ _ _ _ _ s _ _ => s

def Volume.snap_on_start : Volume → Bool
  | .mk _ _ _ _ _ _ _ s _ => s

def Volume.source : Volume → Option Volume
  | .mk _ _ _ _ _ _ _ _ s => s

/-- Volume.__init__ (qubes/storage/__init__.py, lines 83-138).  Checks run
in source order: the assert that a non-None source is a Volume of the same
pool, then the two snap_on_start / source consistency checks, each raising
StoragePoolException; on success all attributes are stored. -/
def volumeInit (name : String) (pool : Pool) (vid : String)
    (revisions_to_keep : Int) (rw : Bool) (save_on_stop : Bool) (size : Int)
    (snap_on_start : Bool) (source : Option Volume) : Except PyExc Volume :=
  if !(match source with
       | none => true
       | some src => poolEqPool src.pool pool) then
    .error .assertionError
  else if snap_on_start && source.isNone then
    .error .storagePoolException
  else if !snap_on_start && source.isSome then
    .error .storagePoolException
  else
    .ok (Volume.mk name pool vid revisions_to_keep rw save_on_stop size
      snap_on_start source)

/-- Volume.__eq__: other.pool == self.pool and other.vid == self.vid
(Pool equality compares names). -/
def volEq (self other : Volume) : Bool :=
  poolEqPool other.pool self.pool && (other.vid == self.vid)

/-- Volume.__str__: str(self.vid). -/
def volStr (v : Volume) : String := v.vid

/-- Volume.__hash__: hash of the string str(pool) ++ ":" ++ vid. -/
def volHash (v : Volume) : Nat :=
  strHash (poolStr v.pool ++ ":" ++ v.vid)

/-- The four snapshot modes of the Volume docstring table. -/
def isVolatile (v : Volume) : Bool := !v.snap_on_start && !v.save_on_stop

def isSnapshot (v : Volume) : Bool := v.snap_on_start && !v.save_on_stop

def isOrigin (v : Volume) : Bool := !v.snap_on_start && v.save_on_stop

def isOriginSnapshot (v : Volume) : Bool := v.snap_on_start && v.save_on_stop

/-- A scalar value of the qubes.xml config dictionary: str, bool or int. -/
inductive ConfigValue where
  | s (val : String)
  | b (val : Bool)
  | i (val : Int)
  deriving DecidableEq, Repr

/-- Volume.config (lines 343-362): the serialization dictionary, in
insertion order; size is added only when self.size is truthy (nonzero)
and source only when not None, serialized through str(). -/
def volumeConfig (v : Volume) : List (String × ConfigValue) :=
  [("name", ConfigValue.s v.name),
   ("pool", ConfigValue.s (poolStr v.pool)),
   ("vid", ConfigValue.s v.vid),
   ("revisions_to_keep", ConfigValue.i v.revisions_to_keep),
   ("rw", ConfigValue.b v.rw),
   ("save_on_stop", ConfigValue.b v.save_on_stop),
   ("snap_on_start", ConfigValue.b v.snap_on_start)]
  ++ (if v.size ≠ 0 then [("size", ConfigValue.i v.size)] else [])
  ++ (match v.source with
      | some src => [("source", ConfigValue.s (volStr src))]
      | none => [])

/-- The helper _sanitize_config (lines 852-862): a bool value is written
as the string "True" when true and dropped entirely when false; every
other value goes through str(). -/
def sanitize_config (config : List (String × ConfigValue)) :
    List (String × String) :=
  config.filterMap (fun kv =>
    match kv.2 with
    | ConfigValue.b true => some (kv.1, "True")
    | ConfigValue.b false => none
    | ConfigValue.s s => some (kv.1, s)
    | ConfigValue.i n => some (kv.1, toString n))

/-- A concrete Pool as seen by VolumesCollection: a name plus the
observable behaviour of get_volume and list_volumes.  The base class
raises NotImplementedError from both; a backend overrides one or both. -/
structure PoolModel where
  name : String
  get_volume : String → Except PyExc Volume
  list_volumes : Except PyExc (List Volume)

/-- VolumesCollection.__getitem__ on a vid string (lines 704-712):
try pool.get_volume(item); when it raises NotImplementedError, fall back
to a linear scan of list_volumes() (a NotImplementedError from the scan
propagates), and raise KeyError when no volume's vid matches. -/
def vcGetVid (p : PoolModel) (vid : String) : Except PyExc Volume :=
  match p.get_volume vid with
  | .error .notImplementedError =>
    match p.list_volumes with
    | .error e => .error e
    | .ok vols =>
      match vols.find? (fun v => v.vid == vid) with
      | some v => .ok v
      | none => .error .keyError
  | r => r

/-- VolumesCollection.__getitem__ (lines 692-712): a Volume key is
resolved through its vid when its pool equals the wrapped pool (Pool
equality is name equality) and raises KeyError otherwise; a string key
is looked up as a vid. -/
def vcGetItem (p : PoolModel) (item : Sum Volume String) : Except PyExc Volume :=
  match item with
  | .inl v => if v.pool.name == p.name then vcGetVid p v.vid else .error .keyError
  | .inr vid => vcGetVid p vid

/-- VolumesCollection.__contains__ (lines 718-725): self[item] is not
None, with KeyError mapped to False; other exceptions propagate. -/
def vcContains (p : PoolModel) (item : Sum Volume String) : Except PyExc Bool :=
  match vcGetItem p item with
  | .ok _ => .ok true
  | .error .keyError => .ok false
  | .error e => .error e

/-- Storage.AVAILABLE_FRONTENDS (line 377) is the set of the 26 names
xvda..xvdz; it is modelled as the list in ascending lexicographic order,
so that sorted(set difference) is the filtered list. -/
def AVAILABLE_FRONTENDS : List String :=
  "abcdefghijklmnopqrstuvwxyz".toList.map (fun c => String.push "xvd" c)

/-- Storage.unused_frontend (lines 620-624): sorted(AVAILABLE_FRONTENDS -
used_frontends)[0]; indexing an empty list raises IndexError. -/
def unused_frontend (used_frontends : List String) : Except PyExc String :=
  match AVAILABLE_FRONTENDS.filter (fun s => !(used_frontends.contains s)) with
  | [] => .error .indexError
  | s :: _ => .ok s

/-- IOError / OSError test for the except clauses in Storage.remove
(IOError is an alias of OSError in Python 3). -/
def isOSError : PyExc → Bool
  | .osError => true
  | _ => false

/-- Modelled from the spec: qubes.utils.void_coros_maybe lives in
qubes/utils.py, which is not under src/.  Per the concurrency section of
the spec, the fan-out awaits every launched task to completion (tasks are
not cancelled early) and, when any failed, surfaces at least one failure
once all tasks have settled; the model surfaces the first failure in task
order. -/
def void_coros_maybe (results : List (Except PyExc Unit)) : Except PyExc Unit :=
  match results.filterMap (fun r =>
      match r with
      | .error e => some e
      | .ok _ => none) with
  | [] => .ok ()
  | e :: _ => .error e

/-- One volume of a VM as seen by Storage.remove: its name, vid, and the
outcome its (coroutine) remove() produces when awaited. -/
structure RemVolume where
  name : String
  vid : String
  removeResult : Except PyExc Unit
  deriving Repr

/-- Observable outcome of Storage.remove: the per-volume log lines
emitted by the loop and what the call itself raises. -/
structure RemoveOutcome where
  logged : List String
  result : Except PyExc Unit
  deriving Repr

/-- Storage.remove (lines 593-608).  The loop logs every volume and calls
vol.remove(); remove() is declared as a coroutine in the base class, so
the call only creates the coroutine and the surrounding
except (IOError, OSError) cannot fire; all coroutines are then awaited
through void_coros_maybe, whose failure is swallowed only when it is an
IOError / OSError. -/
def storageRemove (vols : List RemVolume) : RemoveOutcome :=
  let logged := vols.map (fun v => "Removing volume " ++ v.name ++ ": " ++ v.vid)
  let results := vols.map (fun v => v.removeResult)
  match void_coros_maybe results with
  | .ok _ => ⟨logged, .ok ()⟩
  | .error e => if isOSError e then ⟨logged, .ok ()⟩ else ⟨logged, .error e⟩

/-- One volume name of the VM's volume_config as processed by
Storage.clone_volume (lines 538-554): whether the backend keeps the
volume's backing file inside the VM's directory, the outcomes of
dst.create() and dst.import_volume(src), whether the backend's remove()
is a coroutine (as in the Volume base class), and the outcome remove()
produces when it actually executes. -/
structure CloneTask where
  name : String
  fileInDir : Bool
  createResult : Except PyExc Unit
  importResult : Except PyExc Unit
  removeIsCoroutine : Bool
  removeResult : Except PyExc Unit
  deriving Repr

def exceptOk (r : Except PyExc Unit) : Bool :=
  match r with
  | .ok _ => true
  | .error _ => false

/-- Result of one clone_volume task: dst.create(), then
dst.import_volume(src); the task registers the volume in vm.volumes only
after both succeeded. -/
def cloneVolumeResult (t : CloneTask) : Except PyExc Unit :=
  match t.createResult with
  | .error e => .error e
  | .ok _ => t.importResult

/-- Whether a clone_volume task reached the line vm.volumes[name] = dst. -/
def cloneRegisters (t : CloneTask) : Bool :=
  exceptOk t.createResult && exceptOk t.importResult

/-- Whether the rollback of VmCreationManager.__exit__ actually deletes
the task's volume: remove() must be a plain method (a coroutine is merely
created, never awaited) and must itself succeed (failures are swallowed
by the bare except). -/
def rollbackRemoves (t : CloneTask) : Bool :=
  cloneRegisters t && !t.removeIsCoroutine && exceptOk t.removeResult

/-- Observable outcome of Storage.clone: the exception surfaced to the
caller (none on success), the names registered in vm.volumes, the
registered volumes whose backing storage was actually deleted during
rollback, and whether the VM's storage directory still exists. -/
structure CloneOutcome where
  surfaced : Option PyExc
  volumes : List String
  removedVolumes : List String
  dirExists : Bool
  deriving DecidableEq, Repr

/-- Storage.clone (lines 556-563) together with VmCreationManager
(lines 911-927).  vm.volumes is reset, clone_volume runs for every
configured name (all tasks settle; the first failure is surfaced by the
fan-out).  On failure, __exit__ iterates vm.volumes calling
volume.remove() with errors swallowed — a coroutine remove() is never
awaited, so it has no effect — and then calls os.rmdir(vm.dir_path)
outside any try: rmdir fails with OSError when backing files remain in
the directory, and an exception raised by __exit__ replaces the original
one. -/
def storageClone (tasks : List CloneTask) : CloneOutcome :=
  let registered := (tasks.filter cloneRegisters).map (fun t => t.name)
  match void_coros_maybe (tasks.map cloneVolumeResult) with
  | .ok _ => ⟨none, registered, [], true⟩
  | .error e =>
    let removed := (tasks.filter rollbackRemoves).map (fun t => t.name)
    let remainingFiles := (tasks.filter (fun t =>
      exceptOk t.createResult && t.fileInDir && !rollbackRemoves t)).map
        (fun t => t.name)
    if remainingFiles.isEmpty then
      ⟨some e, registered, removed, false⟩
    else
      ⟨some PyExc.osError, registered, removed, true⟩

/-- Environment of search_pool_containing_dir: the behaviour of
os.path.realpath and of DirectoryThinPool.thin_pool (dmsetup lookup,
returning the (volume_group, thin_pool) pair of the backing device-mapper
thin pool, or the pair (None, None), modelled as none).  Paths are lists
of components, so os.path.commonpath([a, b]) == a is exactly "the
components of a form a leading run of the components of b". -/
structure LocEnv where
  realpath : List String → List String
  dmThinPool : List String → Option (String × String)

/-- A pool as inspected by search_pool_containing_dir: dir_path is present
exactly on filesystem-backed pools, thinAttrs is the (volume_group,
thin_pool) attribute pair present exactly on thin-provisioned pools. -/
structure LocPool where
  name : String
  dir_path : Option (List String)
  thinAttrs : Option (String × String)
  deriving DecidableEq, Repr

/-- First loop test of search_pool_containing_dir (lines 894-899):
the pool has a dir_path and its realpath is a path-component ancestor of
the candidate's realpath. -/
def fsBacks (env : LocEnv) (real : List String) (p : LocPool) : Bool :=
  match p.dir_path with
  | some d => (env.realpath d).isPrefixOf real
  | none => false

/-- Second loop test (lines 901-906): the pool has thin_pool and
volume_group attributes equal to DirectoryThinPool.thin_pool of the
candidate's realpath. -/
def thinBacks (env : LocEnv) (real : List String) (p : LocPool) : Bool :=
  match p.thinAttrs with
  | some vgtp => env.dmThinPool real == some vgtp
  | none => false

/-- search_pool_containing_dir (lines 885-908): prefer the first
filesystem-backed pool containing the directory, then the first
thin-provisioned pool whose pair matches, else None. -/
def search_pool_containing_dir (env : LocEnv) (pools : List LocPool)
    (dir_path : List String) : Option LocPool :=
  let real := env.realpath dir_path
  match pools.find? (fsBacks env real) with
  | some pool => some pool
  | none => pools.find? (thinBacks env real)

/-- Storage.import_data (lines 655-671): a str argument is resolved
through vm.volumes (KeyError when absent); a None size is replaced by the
volume's current size; the call then delegates to volume.import_data with
that size.  The model returns the delegation target and the size argument
passed to it. -/
def storageImportData (volumes : List (String × Volume))
    (volume : Sum Volume String) (size : Option Int) :
    Except PyExc (Volume × Int) :=
  match volume with
  | .inl v => .ok (v, size.getD v.size)
  | .inr name =>
    match volumes.find? (fun kv => kv.1 == name) with
    | some kv => .ok (kv.2, size.getD kv.2.size)
    | none => .error .keyError

/-- Claim C3: constructing a Volume with snap_on_start=true and
source=None raises a construction-time storage error; constructing with
snap_on_start=false and a non-null source raises a construction-time
error — a StoragePoolException whenever the source passes the same-pool
assert; and every successfully constructed Volume satisfies exactly one
of the four snapshot modes and has any non-null source in its own pool. -/
theorem volume_init_invariants :
    (∀ name pool vid rk rw so sz,
      volumeInit name pool vid rk rw so sz true none =
        .error .storagePoolException) ∧
    (∀ name pool vid rk rw so sz (src : Volume),
      (∃ e, volumeInit name pool vid rk rw so sz false (some src) =
        .error e) ∧
      (poolEqPool src.pool pool = true →
        volumeInit name pool vid rk rw so sz false (some src) =
          .error .storagePoolException)) ∧
    (∀ name pool vid rk rw so sz snap src v,
      volumeInit name pool vid rk rw so sz snap src = .ok v →
      ((isVolatile v).toNat + (isSnapshot v).toNat + (isOrigin v).toNat +
        (isOriginSnapshot v).toNat = 1) ∧
      (∀ w, v.source = some w → poolEqPool w.pool v.pool = true)) := by
  refine ⟨?_, ?_, ?_⟩
  · intro name pool vid rk rw so sz
    rfl
  · intro name pool vid rk rw so sz src
    constructor
    · cases h : poolEqPool src.pool pool with
      | false => exact ⟨.assertionError, by simp [volumeInit, h]⟩
      | true => exact ⟨.storagePoolException, by simp [volumeInit, h]⟩
    · intro h
      simp [volumeInit, h]
  · intro name pool vid rk rw so sz snap src v h
    unfold volumeInit at h
    split at h
    · exact absurd h (by simp)
    · split at h
      · exact absurd h (by simp)
      · split at h
        · exact absurd h (by simp)
        · rename_i h1 h2 h3
          cases h
          constructor
          · cases so <;> cases snap <;>
              simp [isVolatile, isSnapshot, isOrigin, isOriginSnapshot,
                Volume.save_on_stop, Volume.snap_on_start]
          · intro w hw
            cases src with
            | none => exact absurd hw (by simp [Volume.source])
            | some s =>
              simp only [Volume.source] at hw
              cases hw
              simp only [Bool.not_eq_true] at h1
              simpa [Volume.pool] using h1

def poolOne : Pool := ⟨"p1", 1⟩

def volA : Volume := Volume.mk "root" poolOne "vid1" 0 true false 10 false none

def volB : Volume := Volume.mk "private" ⟨"p1", 2⟩ "vid1" 3 false true 99 false none

def volC : Volume := Volume.mk "clean" poolOne "vid2" 0 true false 0 false none

/-- Witness for C3 at concrete volumes: both invalid constructions fail
with StoragePoolException and a successful construction is in exactly one
snapshot mode. -/
theorem volume_init_invariants_witness :
    volumeInit "w" poolOne "v" 0 true false 0 true none =
      .error .storagePoolException ∧
    volumeInit "w" poolOne "v" 0 true false 0 false (some volA) =
      .error .storagePoolException ∧
    ((isVolatile volC).toNat + (isSnapshot volC).toNat + (isOrigin volC).toNat +
      (isOriginSnapshot volC).toNat = 1) :=
  ⟨volume_init_invariants.1 "w" poolOne "v" 0 true false 0,
   (volume_init_invariants.2.1 "w" poolOne "v" 0 true false 0 volA).2 (by decide),
   (volume_init_invariants.2.2 "clean" poolOne "vid2" 0 true false 0 false none
      volC (by rfl)).1⟩

/-- Claim C7: two Volumes are equal exactly when their pools (compared by
name) and vids coincide, independently of every other attribute, and
equal Volumes have equal hashes. -/
theorem volume_eq_iff_pool_vid :
    ∀ v w : Volume,
      (volEq v w = true ↔ (v.pool.name = w.pool.name ∧ v.vid = w.vid)) ∧
      (volEq v w = true → volHash v = volHash w) := by
  intro v w
  have hiff : volEq v w = true ↔ (v.pool.name = w.pool.name ∧ v.vid = w.vid) := by
    unfold volEq poolEqPool
    rw [Bool.and_eq_true, beq_iff_eq, beq_iff_eq]
    exact ⟨fun h => ⟨h.1.symm, h.2.symm⟩, fun h => ⟨h.1.symm, h.2.symm⟩⟩
  refine ⟨hiff, ?_⟩
  intro h
  rcases hiff.mp h with ⟨h1, h2⟩
  unfold volHash poolStr
  rw [h1, h2]

/-- Witness for C7: volA and volB differ in name, size, rw, both boolean
flags and the pool's revisions_to_keep, yet compare equal and hash
equally because pool name and vid coincide. -/
theorem volume_eq_iff_pool_vid_witness :
    volEq volA volB = true ∧ volHash volA = volHash volB :=
  ⟨(volume_eq_iff_pool_vid volA volB).1.mpr (by decide),
   (volume_eq_iff_pool_vid volA volB).2 (by decide)⟩

/-- Claim C9: a Pool compares equal to a string exactly when its name is
that string, to another Pool exactly when the names coincide, and its
hash is the hash of its name, so hashing is consistent with both forms
of equality. -/
theorem pool_eq_hash_consistent :
    ∀ (p : Pool) (s : String),
      (poolEqStr p s = true ↔ p.name = s) ∧
      poolHash p = strHash p.name ∧
      (poolEqStr p s = true → poolHash p = strHash s) ∧
      (∀ q : Pool, (poolEqPool p q = true ↔ p.name = q.name) ∧
        (poolEqPool p q = true → poolHash p = poolHash q)) := by
  intro p s
  refine ⟨by simp [poolEqStr], rfl, ?_, ?_⟩
  · intro h
    simp only [poolEqStr, beq_iff_eq] at h
    simp [poolHash, h]
  · intro q
    refine ⟨by simp [poolEqPool], ?_⟩
    intro h
    simp only [poolEqPool, beq_iff_eq] at h
    simp [poolHash, h]

/-- Witness for C9 at concrete pools: a pool equal to the string of its
name hashes like that string, and pools with equal names but different
revisions_to_keep hash equally. -/
theorem pool_eq_hash_consistent_witness :
    poolHash poolOne = strHash "p1" ∧ poolHash poolOne = poolHash ⟨"p1", 7⟩ :=
  ⟨(pool_eq_hash_consistent poolOne "p1").2.2.1 (by decide),
   ((pool_eq_hash_consistent poolOne "p1").2.2.2 ⟨"p1", 7⟩).2 (by decide)⟩

/-- Claim C10: Storage.import_data with size None delegates to the
volume's import_data with the volume's current size, both for a Volume
argument and for a name resolved through vm.volumes; a given size is
passed through unchanged. -/
theorem storage_import_data_size :
    ∀ (vols : List (String × Volume)) (v : Volume) (nm : String) (s : Int),
      storageImportData vols (.inl v) none = .ok (v, v.size) ∧
      storageImportData vols (.inl v) (some s) = .ok (v, s) ∧
      (∀ kv, vols.find? (fun kv => kv.1 == nm) = some kv →
        storageImportData vols (.inr nm) none = .ok (kv.2, kv.2.size) ∧
        storageImportData vols (.inr nm) (some s) = .ok (kv.2, s)) ∧
      (vols.find? (fun kv => kv.1 == nm) = none →
        storageImportData vols (.inr nm) none = .error .keyError) := by
  intro vols v nm s
  refine ⟨rfl, rfl, ?_, ?_⟩
  · intro kv h
    constructor
    · simp [storageImportData, h]
    · simp [storageImportData, h]
  · intro h
    simp [storageImportData, h]

def volsMap : List (String × Volume) := [("root", volA), ("clean", volC)]

/-- Witness for C10 at a concrete volume mapping: the None size becomes
the looked-up volume's size 10, and the explicit size 77 passes through
for both argument forms. -/
theorem storage_import_data_size_witness :
    storageImportData volsMap (.inl volA) none = .ok (volA, 10) ∧
    storageImportData volsMap (.inl volA) (some 77) = .ok (volA, 77) ∧
    storageImportData volsMap (.inr "root") none = .ok (volA, 10) ∧
    storageImportData volsMap (.inr "root") (some 77) = .ok (volA, 77) ∧
    storageImportData volsMap (.inr "missing") none = .error .keyError :=
  have h := storage_import_data_size volsMap volA "root" 77
  have hk := h.2.2.1 ("root", volA) (by rfl)
  have hm := storage_import_data_size volsMap volA "missing" 77
  ⟨h.1, h.2.1, hk.1, hk.2, hm.2.2.2 (by rfl)⟩

/-- A true boolean config entry is serialized as the string "True". -/
theorem sanitize_config_mem_true (cfg : List (String × ConfigValue))
    (k : String) (h : (k, ConfigValue.b true) ∈ cfg) :
    (k, "True") ∈ sanitize_config cfg := by
  unfold sanitize_config
  exact List.mem_filterMap.mpr ⟨(k, ConfigValue.b true), h, rfl⟩

/-- A key all of whose bindings are the boolean false is absent from the
sanitized config. -/
theorem sanitize_config_key_absent (cfg : List (String × ConfigValue))
    (k : String) (h : ∀ val, (k, val) ∈ cfg → val = ConfigValue.b false) :
    k ∉ (sanitize_config cfg).map Prod.fst := by
  intro hk
  rcases List.mem_map.mp hk with ⟨pair, hpair, hfst⟩
  rcases List.mem_filterMap.mp hpair with ⟨a, ha, hf⟩
  rcases a with ⟨k', val'⟩
  cases val' with
  | s s0 =>
    simp only [sanitize_config] at hf
    cases hf
    have hk' : k' = k := hfst
    subst hk'
    exact absurd (h _ ha) (by simp)
  | i n0 =>
    simp only [sanitize_config] at hf
    cases hf
    have hk' : k' = k := hfst
    subst hk'
    exact absurd (h _ ha) (by simp)
  | b b0 =>
    cases b0 with
    | false => exact Option.noConfusion hf
    | true =>
      simp only [sanitize_config] at hf
      cases hf
      have hk' : k' = k := hfst
      subst hk'
      exact absurd (h _ ha) (by simp)

/-- Every entry of a sanitized config comes from a str entry, an int
entry via str(), or a true boolean written as "True". -/
theorem sanitize_config_mem_inv (cfg : List (String × ConfigValue))
    (k s : String) (h : (k, s) ∈ sanitize_config cfg) :
    (k, ConfigValue.s s) ∈ cfg ∨
    (∃ n, (k, ConfigValue.i n) ∈ cfg ∧ s = toString n) ∨
    ((k, ConfigValue.b true) ∈ cfg ∧ s = "True") := by
  rcases List.mem_filterMap.mp h with ⟨a, ha, hf⟩
  rcases a with ⟨k', val'⟩
  cases val' with
  | s s0 =>
    simp only [Option.some.injEq, Prod.mk.injEq] at hf
    rcases hf with ⟨hk, hs⟩
    subst hk
    subst hs
    exact Or.inl ha
  | i n0 =>
    simp only [Option.some.injEq, Prod.mk.injEq] at hf
    rcases hf with ⟨hk, hs⟩
    subst hk
    exact Or.inr (Or.inl ⟨n0, ha, hs.symm⟩)
  | b b0 =>
    cases b0 with
    | false => exact Option.noConfusion hf
    | true =>
      simp only [Option.some.injEq, Prod.mk.injEq] at hf
      rcases hf with ⟨hk, hs⟩
      subst hk
      exact Or.inr (Or.inr ⟨ha, hs.symm⟩)

/-- Claim C6: serializing a Volume with save_on_stop=false omits the
save_on_stop key entirely, snap_on_start=true is written as the string
"True", and in general boolean-false entries are dropped while only true
booleans are written. -/
theorem config_serialization_bools :
    ∀ v : Volume,
      (v.save_on_stop = false →
        "save_on_stop" ∉ (sanitize_config (volumeConfig v)).map Prod.fst) ∧
      (v.snap_on_start = true →
        ("snap_on_start", "True") ∈ sanitize_config (volumeConfig v)) ∧
      (∀ (cfg : List (String × ConfigValue)) (k : String),
        (∀ val, (k, val) ∈ cfg → val = ConfigValue.b false) →
        k ∉ (sanitize_config cfg).map Prod.fst) ∧
      (∀ (cfg : List (String × ConfigValue)) (k : String),
        (k, ConfigValue.b true) ∈ cfg → (k, "True") ∈ sanitize_config cfg) ∧
      (∀ (cfg : List (String × ConfigValue)) (k s : String),
        (k, s) ∈ sanitize_config cfg →
        (k, ConfigValue.s s) ∈ cfg ∨
        (∃ n, (k, ConfigValue.i n) ∈ cfg ∧ s = toString n) ∨
        ((k, ConfigValue.b true) ∈ cfg ∧ s = "True")) := by
  intro v
  refine ⟨?_, ?_, sanitize_config_key_absent, sanitize_config_mem_true,
    sanitize_config_mem_inv⟩
  · intro hsave
    apply sanitize_config_key_absent
    intro val hval
    unfold volumeConfig at hval
    rcases List.mem_append.mp hval with h1 | h2
    · rcases List.mem_append.mp h1 with h3 | h4
      · simp only [List.mem_cons, List.not_mem_nil, or_false] at h3
        rcases h3 with h | h | h | h | h | h | h
        · injection h with h1 h2
          exact absurd h1 (by decide)
        · injection h with h1 h2
          exact absurd h1 (by decide)
        · injection h with h1 h2
          exact absurd h1 (by decide)
        · injection h with h1 h2
          exact absurd h1 (by decide)
        · injection h with h1 h2
          exact absurd h1 (by decide)
        · injection h with h1 h2
          rw [h2, hsave]
        · injection h with h1 h2
          exact absurd h1 (by decide)
      · split at h4
        · simp only [List.mem_singleton] at h4
          injection h4 with h1 h2
          exact absurd h1 (by decide)
        · exact absurd h4 (List.not_mem_nil _)
    · cases hv : v.source with
      | none =>
        rw [hv] at h2
        exact absurd h2 (List.not_mem_nil _)
      | some src =>
        rw [hv] at h2
        simp only [List.mem_singleton] at h2
        injection h2 with h1 h2
        exact absurd h1 (by decide)
  · intro hsnap
    apply sanitize_config_mem_true
    unfold volumeConfig
    apply List.mem_append.mpr
    apply Or.inl
    apply List.mem_append.mpr
    apply Or.inl
    rw [← hsnap]
    simp

def volSnap : Volume := Volume.mk "root" poolOne "vid9" 2 true false 0 true
  (some volA)

/-- Witness for C6 at a concrete Volume with save_on_stop=false and
snap_on_start=true: its sanitized config has no save_on_stop key and maps
snap_on_start to "True". -/
theorem config_serialization_bools_witness :
    "save_on_stop" ∉ (sanitize_config (volumeConfig volSnap)).map Prod.fst ∧
    ("snap_on_start", "True") ∈ sanitize_config (volumeConfig volSnap) :=
  ⟨(config_serialization_bools volSnap).1 (by rfl),
   (config_serialization_bools volSnap).2.1 (by rfl)⟩

/-- Claim C4: VolumesCollection lookup rejects a Volume key from a
different pool with KeyError; a vid key first goes through get_volume,
and on NotImplementedError falls back to a linear scan of list_volumes,
raising KeyError when no vid matches; contains succeeds exactly when
lookup does. -/
theorem volumes_collection_lookup :
    ∀ (p : PoolModel),
      (∀ v : Volume, v.pool.name ≠ p.name →
        vcGetItem p (.inl v) = .error .keyError) ∧
      (∀ vid v, p.get_volume vid = .ok v → vcGetItem p (.inr vid) = .ok v) ∧
      (∀ vid vols, p.get_volume vid = .error .notImplementedError →
        p.list_volumes = .ok vols →
        (∀ w, vols.find? (fun u => u.vid == vid) = some w →
          vcGetItem p (.inr vid) = .ok w ∧ w.vid = vid ∧ w ∈ vols) ∧
        ((∀ w ∈ vols, w.vid ≠ vid) →
          vcGetItem p (.inr vid) = .error .keyError)) ∧
      (∀ item, vcContains p item = .ok true ↔
        ∃ v, vcGetItem p item = .ok v) := by
  intro p
  refine ⟨?_, ?_, ?_, ?_⟩
  · intro v hne
    have hb : (v.pool.name == p.name) = false := beq_eq_false_iff_ne.mpr hne
    simp [vcGetItem, hb]
  · intro vid v h
    simp [vcGetItem, vcGetVid, h]
  · intro vid vols hni hlist
    constructor
    · intro w hw
      refine ⟨by simp [vcGetItem, vcGetVid, hni, hlist, hw], ?_, ?_⟩
      · have := List.find?_some hw
        exact beq_iff_eq.mp this
      · exact List.mem_of_find?_eq_some hw
    · intro hnone
      have hfind : vols.find? (fun u => u.vid == vid) = none := by
        apply List.find?_eq_none.mpr
        intro u hu
        exact beq_eq_false_iff_ne.mpr (hnone u hu) ▸ (by simp [hnone u hu])
      simp [vcGetItem, vcGetVid, hni, hlist, hfind]
  · intro item
    unfold vcContains
    cases h : vcGetItem p item with
    | ok v => simp [h]
    | error e =>
      cases e <;> simp [h]

def poolListOnly : PoolModel :=
  ⟨"pool1", fun _ => .error .notImplementedError, .ok [volA, volC]⟩

/-- Witness for C4 on a pool implementing only list_volumes: the fallback
scan finds volA by vid, an absent vid raises KeyError, a Volume key of a
foreign pool raises KeyError, and contains matches lookup success. -/
theorem volumes_collection_lookup_witness :
    vcGetItem poolListOnly (.inl volA) = .error .keyError ∧
    vcGetItem poolListOnly (.inr "vid1") = .ok volA ∧
    vcGetItem poolListOnly (.inr "absent") = .error .keyError ∧
    vcContains poolListOnly (.inr "vid1") = .ok true :=
  have h3 := (volumes_collection_lookup poolListOnly).2.2.1 "vid1" [volA, volC]
    rfl rfl
  have h4 := (volumes_collection_lookup poolListOnly).2.2.1 "absent" [volA, volC]
    rfl rfl
  have hfound : vcGetItem poolListOnly (.inr "vid1") = .ok volA :=
    (h3.1 volA (by rfl)).1
  ⟨(volumes_collection_lookup poolListOnly).1 volA (by decide),
   hfound,
   h4.2 (by decide),
   ((volumes_collection_lookup poolListOnly).2.2.2 (.inr "vid1")).mpr
     ⟨volA, hfound⟩⟩

/-- Lexicographic comparison of strings by code point, the order Python
uses to sort str values (and the order of Lean's String.lt, stated here
structurally so that it evaluates). -/
def lexLe : List Char → List Char → Bool
  | [], _ => true
  | _ :: _, [] => false
  | a :: as, b :: bs =>
    if a.val < b.val then true
    else if b.val < a.val then false
    else lexLe as bs

theorem lexLe_refl : ∀ l : List Char, lexLe l l = true := by
  intro l
  induction l with
  | nil => rfl
  | cons a as ih => simp [lexLe, ih]

/-- The modelled frontend namespace is lexicographically sorted, so the
head of any of its filtered sublists is the least matching slot. -/
theorem available_frontends_sorted :
    AVAILABLE_FRONTENDS.Pairwise (fun a b => lexLe a.data b.data = true) := by
  decide

/-- In a list sorted by lexLe, the head of a filtered sublist belongs to
the list, satisfies the filter, and is a lower bound of all elements
satisfying the filter. -/
theorem filter_head_least {p : String → Bool} :
    ∀ (l : List String), l.Pairwise (fun a b => lexLe a.data b.data = true) →
      ∀ s rest, l.filter p = s :: rest →
        s ∈ l ∧ p s = true ∧ ∀ t ∈ l, p t = true → lexLe s.data t.data = true := by
  intro l
  induction l with
  | nil => intro _ s rest h; exact absurd h (by simp)
  | cons a l ih =>
    intro hsorted s rest h
    rcases List.pairwise_cons.mp hsorted with ⟨ha, hl⟩
    by_cases hpa : p a = true
    · rw [List.filter_cons_of_pos hpa] at h
      injection h with h1 h2
      subst h1
      refine ⟨List.mem_cons_self a l, hpa, ?_⟩
      intro t ht _
      rcases List.mem_cons.mp ht with rfl | htl
      · exact lexLe_refl t.data
      · exact ha t htl
    · rw [List.filter_cons_of_neg (by simpa using hpa)] at h
      rcases ih hl s rest h with ⟨hmem, hps, hmin⟩
      refine ⟨List.mem_cons_of_mem a hmem, hps, ?_⟩
      intro t ht hpt
      rcases List.mem_cons.mp ht with rfl | htl
      · exact absurd hpt hpa
      · exact hmin t htl hpt

/-- Claim C5: unused_frontend returns the lexicographically least slot of
the fixed namespace xvda..xvdz not in the used set — in particular never
a used slot — and raises IndexError when every slot is used; determinism
of two calls with the same used set is inherent in the model, which is a
pure function of the used set. -/
theorem unused_frontend_spec :
    ∀ (used : List String),
      (∀ s, unused_frontend used = .ok s →
        s ∉ used ∧ s ∈ AVAILABLE_FRONTENDS ∧
        ∀ t ∈ AVAILABLE_FRONTENDS, t ∉ used → lexLe s.data t.data = true) ∧
      ((∀ t ∈ AVAILABLE_FRONTENDS, t ∈ used) →
        unused_frontend used = .error .indexError) := by
  intro used
  constructor
  · intro s h
    unfold unused_frontend at h
    cases hf : AVAILABLE_FRONTENDS.filter (fun t => !(used.contains t)) with
    | nil =>
      rw [hf] at h
      exact absurd h (by simp)
    | cons a rest =>
      rw [hf] at h
      have h1 : a = s := by injection h
      subst h1
      rcases filter_head_least AVAILABLE_FRONTENDS available_frontends_sorted
        a rest hf with ⟨hmem, hp, hmin⟩
      refine ⟨?_, hmem, ?_⟩
      · intro hs
        simp [hs] at hp
      · intro t ht hnu
        apply hmin t ht
        simp [hnu]
  · intro hall
    unfold unused_frontend
    have hf : AVAILABLE_FRONTENDS.filter (fun t => !(used.contains t)) = [] := by
      rw [List.filter_eq_nil_iff]
      intro a ha
      simp [hall a ha]
    rw [hf]

/-- Witness for C5: with xvda and xvdc used the chosen slot is xvdb,
which is unused and minimal; with every slot used the call fails with
IndexError. -/
theorem unused_frontend_spec_witness :
    ("xvdb" ∉ ["xvda", "xvdc"] ∧ "xvdb" ∈ AVAILABLE_FRONTENDS ∧
      ∀ t ∈ AVAILABLE_FRONTENDS, t ∉ ["xvda", "xvdc"] →
        lexLe "xvdb".data t.data = true) ∧
    unused_frontend AVAILABLE_FRONTENDS = .error .indexError :=
  ⟨(unused_frontend_spec ["xvda", "xvdc"]).1 "xvdb" (by rfl),
   (unused_frontend_spec AVAILABLE_FRONTENDS).2 (fun t ht => ht)⟩

/-- A failure surfaced by the fan-out is one of the task results. -/
theorem void_coros_maybe_error_mem (results : List (Except PyExc Unit))
    (e : PyExc) (h : void_coros_maybe results = .error e) :
    Except.error e ∈ results := by
  unfold void_coros_maybe at h
  cases hf : results.filterMap (fun r =>
      match r with
      | .error e => some e
      | .ok _ => none) with
  | nil =>
    rw [hf] at h
    exact absurd h (by simp)
  | cons e0 rest =>
    rw [hf] at h
    have he : e0 = e := by injection h
    subst he
    have hmem : e0 ∈ results.filterMap (fun r =>
        match r with
        | .error e => some e
        | .ok _ => none) := by
      rw [hf]; exact List.mem_cons_self e0 rest
    rcases List.mem_filterMap.mp hmem with ⟨r, hr, hfr⟩
    cases r with
    | ok u => exact absurd hfr (by simp)
    | error e1 =>
      have : e1 = e0 := by injection hfr
      subst this
      exact hr

/-- Unfolding of Storage.remove into its log list and its final result. -/
theorem storageRemove_eq (vols : List RemVolume) :
    storageRemove vols =
      ⟨vols.map (fun v => "Removing volume " ++ v.name ++ ": " ++ v.vid),
        match void_coros_maybe (vols.map (fun v => v.removeResult)) with
        | .ok _ => .ok ()
        | .error e => if isOSError e then .ok () else .error e⟩ := by
  cases h : void_coros_maybe (vols.map (fun v => v.removeResult)) with
  | ok u => simp [storageRemove, h]
  | error e => cases he : isOSError e <;> simp [storageRemove, h, he]

/-- Claim C2 (amended): Storage.remove logs and schedules the removal of
every volume regardless of failures of its siblings, never raises when
every per-volume failure is an IOError / OSError, and any exception it
does raise is the failure of one of the volume removals, surfaced after
all removals were awaited; exceptions of other classes (such as
NotImplementedError) are not swallowed. -/
theorem storage_remove_best_effort :
    ∀ (vols : List RemVolume),
      (storageRemove vols).logged =
        vols.map (fun v => "Removing volume " ++ v.name ++ ": " ++ v.vid) ∧
      ((∀ v ∈ vols, ∀ e, v.removeResult = .error e → isOSError e = true) →
        (storageRemove vols).result = .ok ()) ∧
      (∀ e, (storageRemove vols).result = .error e →
        ∃ v ∈ vols, v.removeResult = .error e ∧ isOSError e = false) := by
  intro vols
  rw [storageRemove_eq]
  refine ⟨rfl, ?_, ?_⟩
  · intro hall
    show (match void_coros_maybe (vols.map (fun v => v.removeResult)) with
      | .ok _ => (Except.ok () : Except PyExc Unit)
      | .error e => if isOSError e then .ok () else .error e) = .ok ()
    cases h : void_coros_maybe (vols.map (fun v => v.removeResult)) with
    | ok u => rfl
    | error e =>
      have hmem := void_coros_maybe_error_mem _ e h
      rcases List.mem_map.mp hmem with ⟨v, hv, hres⟩
      have hos := hall v hv e hres
      simp [hos]
  · intro e he
    have he' : (match void_coros_maybe (vols.map (fun v => v.removeResult)) with
      | .ok _ => (Except.ok () : Except PyExc Unit)
      | .error e => if isOSError e then .ok () else .error e) = .error e := he
    cases h : void_coros_maybe (vols.map (fun v => v.removeResult)) with
    | ok u =>
      rw [h] at he'
      exact absurd he' (by simp)
    | error e1 =>
      rw [h] at he'
      have he2 : (if isOSError e1 then (Except.ok () : Except PyExc Unit)
          else .error e1) = .error e := he'
      cases hos : isOSError e1 with
      | true =>
        rw [hos] at he2
        exact absurd he2 (by simp)
      | false =>
        rw [hos] at he2
        simp only [Bool.false_eq_true, if_false] at he2
        have he1 : e1 = e := by injection he2
        subst he1
        have hmem := void_coros_maybe_error_mem _ e1 h
        rcases List.mem_map.mp hmem with ⟨v, hv, hres⟩
        exact ⟨v, hv, hres, hos⟩

def remVolOS : RemVolume := ⟨"volatile", "vm1-volatile", .error .osError⟩

def remVolOk : RemVolume := ⟨"private", "vm1-private", .ok ()⟩

def remVolNI : RemVolume := ⟨"root", "vm1-root", .error .notImplementedError⟩

/-- Witness for C2 (amended) at a concrete volume list: with one OSError
failure and one success, both volumes are logged and the call raises
nothing. -/
theorem storage_remove_best_effort_witness :
    (storageRemove [remVolOS, remVolOk]).logged =
      ["Removing volume volatile: vm1-volatile",
       "Removing volume private: vm1-private"] ∧
    (storageRemove [remVolOS, remVolOk]).result = .ok () :=
  ⟨(storage_remove_best_effort [remVolOS, remVolOk]).1,
   (storage_remove_best_effort [remVolOS, remVolOk]).2.1 (by
     intro v hv e he
     rcases List.mem_cons.mp hv with rfl | hv1
     · have : PyExc.osError = e := by injection he
       subst this
       rfl
     · rcases List.mem_cons.mp hv1 with rfl | hv2
       · exact Except.noConfusion he
       · exact absurd hv2 (List.not_mem_nil _))⟩

/-- Counterexample to C2 as stated: a volume whose remove() fails with
NotImplementedError makes Storage.remove itself raise — the except
clauses catch only IOError / OSError — so the call does not always
return without exception. -/
theorem storage_remove_counterexample :
    (storageRemove [remVolNI, remVolOk]).result =
      .error .notImplementedError ∧
    (storageRemove [remVolNI, remVolOk]).result ≠ .ok () :=
  ⟨rfl, fun h => Except.noConfusion h⟩

def cloneTaskRoot : CloneTask :=
  ⟨"root", true, .ok (), .ok (), true, .ok ()⟩

def cloneTaskPrivate : CloneTask :=
  ⟨"private", true, .ok (), .error .storagePoolException, true, .ok ()⟩

def cloneTaskRootSync : CloneTask :=
  ⟨"root", true, .ok (), .ok (), false, .ok ()⟩

def cloneTaskPrivateSync : CloneTask :=
  ⟨"private", true, .error .storagePoolException, .ok (), false, .ok ()⟩

/-- Claim C1, evaluated at the spec's own scenario (import_volume fails
for the second of two volumes) with the coroutine remove() of the Volume
base class: the registered first volume is NOT removed (the rollback
calls volume.remove() without awaiting the coroutine), its backing file
keeps the VM directory non-empty, so os.rmdir — outside any try —
raises OSError, the directory survives, and the caller sees the rmdir
OSError instead of the original import failure.  By contrast, when
remove() is a plain method and the failing volume created no file, the
rollback behaves exactly as the claim describes. -/
theorem clone_rollback_divergence :
    storageClone [cloneTaskRoot, cloneTaskPrivate] =
      ⟨some PyExc.osError, ["root"], [], true⟩ ∧
    (storageClone [cloneTaskRoot, cloneTaskPrivate]).surfaced ≠
      some PyExc.storagePoolException ∧
    storageClone [cloneTaskRootSync, cloneTaskPrivateSync] =
      ⟨some PyExc.storagePoolException, ["root"], ["root"], false⟩ := by
  decide

/-- Claim C8: search_pool_containing_dir returns a filesystem-backed pool
whose real directory is a component-prefix ancestor of the candidate's
real path whenever one exists (preferring them over thin-provisioned
pools), otherwise a pool whose (volume_group, thin_pool) pair matches the
candidate's resolved device-mapper thin pool, and None when neither
technique matches any pool. -/
theorem search_pool_containing_dir_spec :
    ∀ (env : LocEnv) (pools : List LocPool) (dir : List String),
      (∀ real q, fsBacks env real q = true →
        ∃ d, q.dir_path = some d ∧
          (env.realpath d).isPrefixOf real = true) ∧
      (∀ q, search_pool_containing_dir env pools dir = some q →
        q ∈ pools ∧
        (fsBacks env (env.realpath dir) q = true ∨
          ((∀ p ∈ pools, fsBacks env (env.realpath dir) p = false) ∧
            thinBacks env (env.realpath dir) q = true))) ∧
      (∀ p ∈ pools, fsBacks env (env.realpath dir) p = true →
        ∃ q, search_pool_containing_dir env pools dir = some q ∧
          fsBacks env (env.realpath dir) q = true) ∧
      ((∀ p ∈ pools, fsBacks env (env.realpath dir) p = false ∧
          thinBacks env (env.realpath dir) p = false) →
        search_pool_containing_dir env pools dir = none) := by
  intro env pools dir
  refine ⟨?_, ?_, ?_, ?_⟩
  · intro real q hq
    unfold fsBacks at hq
    cases hd : q.dir_path with
    | none => rw [hd] at hq; exact absurd hq (by simp)
    | some d =>
      rw [hd] at hq
      exact ⟨d, rfl, hq⟩
  · intro q hq
    have hq' : (match pools.find? (fsBacks env (env.realpath dir)) with
      | some pool => some pool
      | none => pools.find? (thinBacks env (env.realpath dir))) = some q := hq
    cases hfs : pools.find? (fsBacks env (env.realpath dir)) with
    | some p =>
      rw [hfs] at hq'
      have hq2 : some p = some q := hq'
      have hpq : p = q := by injection hq2
      subst hpq
      exact ⟨List.mem_of_find?_eq_some hfs, Or.inl (List.find?_some hfs)⟩
    | none =>
      rw [hfs] at hq'
      have hq2 : pools.find? (thinBacks env (env.realpath dir)) = some q := hq'
      refine ⟨List.mem_of_find?_eq_some hq2, Or.inr ⟨?_, List.find?_some hq2⟩⟩
      intro p hp
      have := List.find?_eq_none.mp hfs p hp
      simpa using this
  · intro p hp hfsp
    cases hfs : pools.find? (fsBacks env (env.realpath dir)) with
    | some q =>
      refine ⟨q, ?_, List.find?_some hfs⟩
      show (match pools.find? (fsBacks env (env.realpath dir)) with
        | some pool => some pool
        | none => pools.find? (thinBacks env (env.realpath dir))) = some q
      simp [hfs]
    | none =>
      have := List.find?_eq_none.mp hfs p hp
      simp [hfsp] at this
  · intro hnone
    have h1 : pools.find? (fsBacks env (env.realpath dir)) = none := by
      apply List.find?_eq_none.mpr
      intro p hp
      simp [(hnone p hp).1]
    have h2 : pools.find? (thinBacks env (env.realpath dir)) = none := by
      apply List.find?_eq_none.mpr
      intro p hp
      simp [(hnone p hp).2]
    show (match pools.find? (fsBacks env (env.realpath dir)) with
      | some pool => some pool
      | none => pools.find? (thinBacks env (env.realpath dir))) = none
    simp [h1, h2]

def locEnvId : LocEnv := ⟨fun l => l, fun _ => none⟩

def poolFs : LocPool := ⟨"P1", some ["data", "pool1"], none⟩

def poolThin : LocPool := ⟨"P2", none, some ("qubes_dom0", "pool00")⟩

/-- Witness for C8 at the spec's example: with filesystem pool P1 rooted
at /data/pool1 and thin pool P2, the directory /data/pool1/sub/dir is
located in P1. -/
theorem search_pool_containing_dir_spec_witness :
    (∃ q, search_pool_containing_dir locEnvId [poolFs, poolThin]
        ["data", "pool1", "sub", "dir"] = some q ∧
      fsBacks locEnvId ["data", "pool1", "sub", "dir"] q = true) ∧
    search_pool_containing_dir locEnvId [poolFs, poolThin]
      ["data", "pool1", "sub", "dir"] = some poolFs ∧
    search_pool_containing_dir locEnvId [poolThin] ["other"] = none :=
  ⟨(search_pool_containing_dir_spec locEnvId [poolFs, poolThin]
      ["data", "pool1", "sub", "dir"]).2.2.1 poolFs (by simp) (by rfl),
   rfl,
   (search_pool_containing_dir_spec locEnvId [poolThin] ["other"]).2.2.2 (by
     intro p hp
     rcases List.mem_cons.mp hp with rfl | hp1
     · exact ⟨rfl, rfl⟩
     · exact absurd hp1 (List.not_mem_nil _))⟩
